import Mathlib

set_option linter.unusedVariables false

/-!
Verification of the jsoNinja pipeline (src/main.py) against its specification.

The embedding below translates the Python source into pure Lean functions.
Python values flowing through the pipeline are modelled by the inductive
type `JSON`; Python dictionaries are association lists preserving insertion
order, with a separate constructor for `collections.defaultdict(dict)`
(whose subscript read auto-creates a missing entry) versus a plain `dict`
(whose subscript read raises `KeyError` on a missing entry).  Mutation of
the nested store is modelled by rebuilding the tree; a raised Python
exception is modelled by an `Option PyErr` component of each result, and
the returned store reflects exactly the mutations performed before the
exception was raised, as in the source.
-/

/-- Python exceptions that the store operations in src/main.py can raise. -/
inductive PyErr
  | typeError
  | keyError
deriving DecidableEq

/-- Model of the Python values handled by the pipeline (the JSON type alias
in src/main.py line 18, extended with numbers, plus the distinction between
plain dict values and store-created defaultdict nodes). -/
inductive JSON
  | str (s : String)
  | bool (b : Bool)
  | num (n : Int)
  | list (xs : List JSON)
  | dict (entries : List (String × JSON))
  | ddict (entries : List (String × JSON))

/-- Association-list entries of a Python dict, in insertion order. -/
abbrev Entries := List (String × JSON)

/-- JSON.isList models the isinstance(x, list) test. -/
def JSON.isList : JSON → Bool
  | JSON.list _ => true
  | _ => false

/-- JSON.isMapping is true exactly on the two dict-like constructors. -/
def JSON.isMapping : JSON → Bool
  | JSON.dict _ => true
  | JSON.ddict _ => true
  | _ => false

/-- Python dict read d[k] (first matching key, as dict keys are unique). -/
def lookup : Entries → String → Option JSON
  | [], _ => none
  | (k1, v1) :: rest, k => if k1 = k then some v1 else lookup rest k

/-- Python dict write d[k] = v: replaces the value in place when the key is
present, otherwise inserts the key at the end, as Python dicts do. -/
def setKey : Entries → String → JSON → Entries
  | [], k, v => [(k, v)]
  | (k1, v1) :: rest, k, v =>
    if k1 = k then (k, v) :: rest else (k1, v1) :: setKey rest k v

/-- Model of the Python str.split on a dot: splitting a character list on
the dot character, keeping empty segments, never returning an empty list. -/
def splitDots : List Char → List (List Char)
  | [] => [[]]
  | c :: rest =>
    if c = '.' then [] :: splitDots rest
    else
      match splitDots rest with
      | [] => [[c]]
      | s :: ss => (c :: s) :: ss

/-- Model of the Python str.strip: drop whitespace from both ends. -/
def pyStrip (cs : List Char) : List Char :=
  ((cs.dropWhile Char.isWhitespace).reverse.dropWhile Char.isWhitespace).reverse

/-- Translation of the key-path parsing of DataStore._get_dict_and_key
(src/main.py line 43): strip the whole path, then split it on dots. -/
def keysOf (key_path : String) : List String :=
  (splitDots (pyStrip key_path.toList)).map (fun cs => String.mk cs)

/-- Separates keys into the Python slices keys[:-1] and keys[-1], given the
head and tail of the (always nonempty) key list. -/
def splitLast1 : String → List String → List String × String
  | k, [] => ([], k)
  | k, k2 :: rest =>
    let r := splitLast1 k2 rest
    (k :: r.1, r.2)

/-- Final step of DataStore.set (src/main.py line 28): obj[key] = value on
the dict node reached by the walk.  Assignment succeeds on either dict
kind; the walk itself rejects non-dict nodes with a TypeError, matching the
TypeError the Python subscript raises there. -/
def setAct (value : JSON) : Bool → Entries → String → Entries × Option PyErr :=
  fun _ es key => (setKey es key value, none)

/-- Final step of DataStore.append (src/main.py lines 31 to 34): read
obj[key] (a defaultdict auto-creates a missing entry, a plain dict raises
KeyError), reset it to an empty list when it is not a list, then append the
value as one element. -/
def appendAct (value : JSON) : Bool → Entries → String → Entries × Option PyErr :=
  fun isDD es key =>
    match lookup es key with
    | some (JSON.list xs) => (setKey es key (JSON.list (xs ++ [value])), none)
    | some _ => (setKey es key (JSON.list [value]), none)
    | none =>
      if isDD then (setKey es key (JSON.list [value]), none)
      else (es, some PyErr.keyError)

/-- Python iteration over a value, as used by list.extend: lists yield
their elements, strings their characters, dicts their keys; other values
are not iterable and raise TypeError. -/
def pyIter : JSON → Option (List JSON)
  | JSON.list xs => some xs
  | JSON.str s => some (s.toList.map (fun c => JSON.str c.toString))
  | JSON.dict es => some (es.map (fun kv => JSON.str kv.1))
  | JSON.ddict es => some (es.map (fun kv => JSON.str kv.1))
  | _ => none

/-- Final step of DataStore.extend (src/main.py lines 37 to 40): read
obj[key] as in append, reset a non-list to an empty list, then splice in
each element of the argument; a non-iterable argument raises TypeError
after the reset to the empty list has already been stored. -/
def extendAct (value : JSON) : Bool → Entries → String → Entries × Option PyErr :=
  fun isDD es key =>
    match lookup es key with
    | some (JSON.list xs) =>
      match pyIter value with
      | some ys => (setKey es key (JSON.list (xs ++ ys)), none)
      | none => (es, some PyErr.typeError)
    | some _ =>
      match pyIter value with
      | some ys => (setKey es key (JSON.list ys), none)
      | none => (setKey es key (JSON.list []), some PyErr.typeError)
    | none =>
      if isDD then
        match pyIter value with
        | some ys => (setKey es key (JSON.list ys), none)
        | none => (setKey es key (JSON.list []), some PyErr.typeError)
      else (es, some PyErr.keyError)

/-- Translation of the walk in DataStore._get_dict_and_key (src/main.py
lines 44 to 50) fused with the final subscript operation of the caller:
for each key in keys[:-1], a missing key is auto-created as a fresh
defaultdict(dict), an existing dict-like child is entered, and any other
child value leads to the TypeError that the Python subscript on it raises;
the act argument is the final operation performed by set, append or extend
on the reached node and keys[-1]. -/
def walkEntries (act : Bool → Entries → String → Entries × Option PyErr) :
    Bool → Entries → List String → String → Entries × Option PyErr
  | isDD, es, [], last => act isDD es last
  | _, es, k :: rest, last =>
    match lookup es k with
    | some (JSON.dict ces) =>
      let r := walkEntries act false ces rest last
      (setKey es k (JSON.dict r.1), r.2)
    | some (JSON.ddict ces) =>
      let r := walkEntries act true ces rest last
      (setKey es k (JSON.ddict r.1), r.2)
    | some _ => (es, some PyErr.typeError)
    | none =>
      let r := walkEntries act true [] rest last
      (setKey es k (JSON.ddict r.1), r.2)

/-- Translation of class DataStore (src/main.py line 21): the root is the
defaultdict(dict) created in the constructor. -/
structure DataStore where
  _dict : Entries

/-- A DataStore as built by the constructor (src/main.py lines 23 to 24). -/
def DataStore.empty : DataStore := ⟨[]⟩

/-- Shared shape of the three mutators: parse the key path, walk the
intermediate keys, and perform the final operation on the reached node.
The empty-keys branch is unreachable because splitDots never returns an
empty list. -/
def DataStore.applyOp (s : DataStore) (key_path : String)
    (act : Bool → Entries → String → Entries × Option PyErr) :
    DataStore × Option PyErr :=
  match keysOf key_path with
  | [] => (s, none)
  | k :: ks =>
    let pr := splitLast1 k ks
    let r := walkEntries act true s._dict pr.1 pr.2
    (⟨r.1⟩, r.2)

/-- Translation of DataStore.set (src/main.py lines 26 to 28). -/
def DataStore.set (s : DataStore) (key_path : String) (value : JSON) :
    DataStore × Option PyErr :=
  s.applyOp key_path (setAct value)

/-- Translation of DataStore.append (src/main.py lines 30 to 34). -/
def DataStore.append (s : DataStore) (key_path : String) (value : JSON) :
    DataStore × Option PyErr :=
  s.applyOp key_path (appendAct value)

/-- Translation of DataStore.extend (src/main.py lines 36 to 40). -/
def DataStore.extend (s : DataStore) (key_path : String) (value : JSON) :
    DataStore × Option PyErr :=
  s.applyOp key_path (extendAct value)

/-- Read access to the nested tree, following a segment list through
dict-like nodes.  The spec states read access is implied; this is the
observation function used to state the properties. -/
def getNode : JSON → List String → Option JSON
  | v, [] => some v
  | JSON.dict es, k :: rest =>
    (match lookup es k with
     | some c => getNode c rest
     | none => none)
  | JSON.ddict es, k :: rest =>
    (match lookup es k with
     | some c => getNode c rest
     | none => none)
  | _, _ :: _ => none

/-- Read the value stored at a dot-separated key path. -/
def DataStore.get (s : DataStore) (key_path : String) : Option JSON :=
  getNode (JSON.ddict s._dict) (keysOf key_path)

/-- One step of getNode through an entry list, used to state lemmas
uniformly over the two dict kinds. -/
def lookNode (es : Entries) (k : String) (rest : List String) : Option JSON :=
  match lookup es k with
  | some c => getNode c rest
  | none => none

/-- Pure mirror of the descent of the walk of _get_dict_and_key through the
intermediate keys: returns the dict kind and entries of the node the walk
reaches (a missing key leading to a fresh empty defaultdict), or none when
the walk meets a non-dict value and raises TypeError. -/
def navigate : Bool → Entries → List String → Option (Bool × Entries)
  | isDD, es, [] => some (isDD, es)
  | _, es, k :: rest =>
    match lookup es k with
    | some (JSON.dict ces) => navigate false ces rest
    | some (JSON.ddict ces) => navigate true ces rest
    | some _ => none
    | none => navigate true [] rest

/-- Two segment lists diverge when neither is a prefix of the other: at
some position reached by both, their segments differ. -/
def divergesB : List String → List String → Bool
  | [], _ => false
  | _, [] => false
  | a :: as1, b :: bs => if a = b then divergesB as1 bs else true

/-- Black-box model of the external jsonpath evaluator: none models the
False result that jsonpath.jsonpath returns when nothing matches. -/
abbrev Query := JSON → String → Option JSON

/-- Kinds of concrete collectors in src/main.py. -/
inductive CollectorKind
  | extender
  | appender

/-- Translation of class JsonCollector and its two concrete subclasses
(src/main.py lines 162 to 197): a JSONPath query string, a target key
path, and the write policy of the subclass. -/
structure JsonCollector where
  kind : CollectorKind
  json_path : String
  key_path : String

/-- Constructor of JsonStaticListExtender (src/main.py lines 182 to 185). -/
def JsonStaticListExtender (json_path key_path : String) : JsonCollector :=
  ⟨CollectorKind.extender, json_path, key_path⟩

/-- Constructor of JsonStaticListAppender (src/main.py lines 191 to 194). -/
def JsonStaticListAppender (json_path key_path : String) : JsonCollector :=
  ⟨CollectorKind.appender, json_path, key_path⟩

/-- Translation of the _set overrides (src/main.py lines 187 to 188 and
196 to 197): the extender calls DataStore.extend, the appender calls
DataStore.append, each on its configured key path. -/
def JsonCollector._set (c : JsonCollector) (data_store : DataStore)
    (json_obj : JSON) : DataStore × Option PyErr :=
  match c.kind with
  | CollectorKind.extender => data_store.extend c.key_path json_obj
  | CollectorKind.appender => data_store.append c.key_path json_obj

/-- Result of running a pipeline stage: the store state, the warning
messages logged, and the exception raised, if any. -/
structure RunResult where
  store : DataStore
  warnings : List String
  err : Option PyErr

/-- Translation of JsonCollector.run (src/main.py lines 174 to 179): when
the evaluator signals not-found, log a warning and leave the store alone;
otherwise apply the write policy to the query result. -/
def JsonCollector.run (q : Query) (c : JsonCollector) (json_obj : JSON)
    (data_store : DataStore) : RunResult :=
  match q json_obj c.json_path with
  | none => ⟨data_store, ["Could not find path: " ++ c.json_path], none⟩
  | some r =>
    let pr := c._set data_store r
    ⟨pr.1, [], pr.2⟩

/-- A JSON document source; root is given the index of the call, so that a
file-backed source whose successive reads may differ is representable and
the number of root calls consumed is observable. -/
structure JsonDataSource where
  root : Nat → JSON

/-- Translation of class JsonDict (src/main.py lines 129 to 134): wraps an
already-parsed value. -/
structure JsonDict where
  json_obj : JSON

/-- Translation of JsonDict.root (src/main.py lines 133 to 134): returns
the wrapped value, whatever the call index. -/
def JsonDict.root (d : JsonDict) (callIdx : Nat) : JSON := d.json_obj

/-- View of a JsonDict as a JsonDataSource. -/
def JsonDict.toDataSource (d : JsonDict) : JsonDataSource := ⟨d.root⟩

/-- Translation of class JsonPipe (src/main.py lines 200 to 203). -/
structure JsonPipe where
  source : JsonDataSource
  collectors : List JsonCollector

/-- The collector loop of JsonPipe.run (src/main.py lines 207 to 208):
each collector runs in order against the same document; an exception
aborts the loop and propagates. -/
def runCollectors (q : Query) (doc : JSON) :
    List JsonCollector → DataStore → RunResult
  | [], ds => ⟨ds, [], none⟩
  | c :: rest, ds =>
    let r1 := c.run q doc ds
    match r1.err with
    | some e => ⟨r1.store, r1.warnings, some e⟩
    | none =>
      let r2 := runCollectors q doc rest r1.store
      ⟨r2.store, r1.warnings ++ r2.warnings, r2.err⟩

/-- Translation of JsonPipe.run (src/main.py lines 205 to 208): obtain the
document from one root call, then run every collector on it in order.  The
Nat argument and result thread the count of root calls made so far, so the
theorem can state that exactly one call is consumed. -/
def JsonPipe.run (q : Query) (p : JsonPipe) (store : DataStore)
    (rootCalls : Nat) : RunResult × Nat :=
  (runCollectors q (p.source.root rootCalls) p.collectors store, rootCalls + 1)

/-- A sink, modelled by the output it produces from the final store; the
concrete JinjaTemplateSink delegates to the external template engine, which
the spec treats as a black box. -/
structure Sink where
  send : DataStore → String

/-- Translation of class Transformer (src/main.py lines 211 to 214). -/
structure Transformer where
  sources : List JsonPipe
  sinks : List Sink

/-- The pipe loop of Transformer.run (src/main.py lines 218 to 219):
each pipe runs in order against the same store; an exception aborts the
loop and propagates. -/
def runPipes (q : Query) :
    List JsonPipe → DataStore → Nat → RunResult × Nat
  | [], ds, n => (⟨ds, [], none⟩, n)
  | p :: rest, ds, n =>
    let r1 := p.run q ds n
    match r1.1.err with
    | some e => (⟨r1.1.store, r1.1.warnings, some e⟩, r1.2)
    | none =>
      let r2 := runPipes q rest r1.1.store r1.2
      (⟨r2.1.store, r1.1.warnings ++ r2.1.warnings, r2.1.err⟩, r2.2)

/-- Translation of Transformer.run (src/main.py lines 216 to 221): create
a fresh empty store, run every pipe against it in order, then, when no
exception was raised, run every sink against the final store in order; the
second component collects the sink outputs in order. -/
def Transformer.run (q : Query) (t : Transformer) : RunResult × List String :=
  let r := (runPipes q t.sources DataStore.empty 0).1
  match r.err with
  | some _ => (r, [])
  | none => (r, t.sinks.map (fun sk => sk.send r.store))

/-- Writing one key then reading it back gives the written value. -/
theorem lookup_setKey_self (es : Entries) (k : String) (v : JSON) :
    lookup (setKey es k v) k = some v := by
  induction es with
  | nil => simp [setKey, lookup]
  | cons kv rest ih =>
    by_cases h : kv.1 = k
    · simp [setKey, lookup, h]
    · simp [setKey, lookup, h, ih]

/-- Writing one key leaves every other key unchanged. -/
theorem lookup_setKey_ne (es : Entries) (k k2 : String) (v : JSON)
    (h : k2 ≠ k) : lookup (setKey es k v) k2 = lookup es k2 := by
  induction es with
  | nil => simp [setKey, lookup, Ne.symm h]
  | cons kv rest ih =>
    by_cases h1 : kv.1 = k
    · subst h1
      simp [setKey, lookup, Ne.symm h]
    · simp only [setKey, if_neg h1, lookup]
      by_cases h2 : kv.1 = k2 <;> simp [h2, ih]

/-- Rewriting a key to the value it already holds is the identity. -/
theorem setKey_lookup_id (es : Entries) (k : String) (v : JSON)
    (h : lookup es k = some v) : setKey es k v = es := by
  induction es with
  | nil => simp [lookup] at h
  | cons kv rest ih =>
    rcases kv with ⟨k1, v1⟩
    by_cases h1 : k1 = k
    · subst h1
      simp [lookup] at h
      simp [setKey, h]
    · simp [lookup, h1] at h
      simp [setKey, h1, ih h]

/-- splitLast1 realizes the Python slices keys[:-1] and keys[-1]. -/
theorem splitLast1_eq : ∀ (ks : List String) (k : String),
    (splitLast1 k ks).1 ++ [(splitLast1 k ks).2] = k :: ks := by
  intro ks
  induction ks with
  | nil => intro k; rfl
  | cons k2 rest ih => intro k; simp [splitLast1, ih k2]

/-- splitDots always produces at least one segment. -/
theorem splitDots_ne_nil (cs : List Char) : splitDots cs ≠ [] := by
  induction cs with
  | nil => simp [splitDots]
  | cons c rest ih =>
    simp only [splitDots]
    split
    · simp
    · split
      · simp
      · simp

/-- Key-path parsing always produces at least one segment. -/
theorem keysOf_ne_nil (p : String) : keysOf p ≠ [] := by
  intro h
  exact splitDots_ne_nil _ (List.map_eq_nil_iff.mp h)

/-- The walk descent from a fresh empty defaultdict always succeeds and
ends at a fresh empty defaultdict. -/
theorem navigate_nil : ∀ (inter : List String),
    navigate true [] inter = some (true, []) := by
  intro inter
  induction inter with
  | nil => rfl
  | cons k rest ih => simp [navigate, lookup, ih]

/-- Reading one final segment through lookNode is a plain lookup. -/
theorem lookNode_nil (es : Entries) (q : String) :
    lookNode es q [] = lookup es q := by
  unfold lookNode
  cases h : lookup es q <;> simp [getNode]

/-- Nothing is readable under an empty entry list. -/
theorem lookNode_empty (q : String) (rest : List String) :
    lookNode [] q rest = none := by
  simp [lookNode, lookup]

/-- divergesB is false against an empty right list. -/
theorem divergesB_nil_right (xs : List String) : divergesB xs [] = false := by
  cases xs <;> rfl

/-- On a nonempty path the two dict kinds are read identically. -/
theorem getNode_dict_eq_ddict (es : Entries) (t : List String) (h : t ≠ []) :
    getNode (JSON.dict es) t = getNode (JSON.ddict es) t := by
  cases t with
  | nil => exact absurd rfl h
  | cons k rest => rfl

/-- Main lemma about the walk of _get_dict_and_key on a clear path: when
the descent through the intermediate keys meets only dict-like or missing
nodes ending at a node with entries fes, the fused operation returns
exactly the error of the final act on fes, the rebuilt tree still walks to
the entries produced by the act, and reading any path that extends the
intermediate keys by one segment reads the act result directly. -/
theorem walk_master (act : Bool → Entries → String → Entries × Option PyErr) :
    ∀ (inter : List String) (isDD : Bool) (es fes : Entries) (fdd : Bool)
      (last : String),
    navigate isDD es inter = some (fdd, fes) →
    (walkEntries act isDD es inter last).2 = (act fdd fes last).2 ∧
    navigate isDD (walkEntries act isDD es inter last).1 inter
      = some (fdd, (act fdd fes last).1) ∧
    ∀ q, getNode (JSON.ddict (walkEntries act isDD es inter last).1)
          (inter ++ [q]) = lookup (act fdd fes last).1 q := by
  intro inter
  induction inter with
  | nil =>
    intro isDD es fes fdd last hnav
    simp only [navigate, Option.some.injEq, Prod.mk.injEq] at hnav
    obtain ⟨h1, h2⟩ := hnav
    subst h1
    subst h2
    refine ⟨rfl, rfl, ?_⟩
    intro q
    show lookNode (act isDD es last).1 q [] = _
    exact lookNode_nil _ _
  | cons k rest ih =>
    intro isDD es fes fdd last hnav
    cases hl : lookup es k with
    | none =>
      have hnav2 : navigate true [] rest = some (fdd, fes) := by
        simpa [navigate, hl] using hnav
      obtain ⟨ih1, ih2, ih3⟩ := ih true [] fes fdd last hnav2
      refine ⟨?_, ?_, ?_⟩
      · simp only [walkEntries, hl]
        exact ih1
      · simp only [walkEntries, hl, navigate, lookup_setKey_self]
        exact ih2
      · intro q
        simp only [walkEntries, hl, List.cons_append]
        show lookNode (setKey es k
          (JSON.ddict (walkEntries act true [] rest last).1)) k (rest ++ [q]) = _
        simp only [lookNode, lookup_setKey_self]
        exact ih3 q
    | some val =>
      cases val with
      | dict ces =>
        have hnav2 : navigate false ces rest = some (fdd, fes) := by
          simpa [navigate, hl] using hnav
        obtain ⟨ih1, ih2, ih3⟩ := ih false ces fes fdd last hnav2
        refine ⟨?_, ?_, ?_⟩
        · simp only [walkEntries, hl]
          exact ih1
        · simp only [walkEntries, hl, navigate, lookup_setKey_self]
          exact ih2
        · intro q
          simp only [walkEntries, hl, List.cons_append]
          show lookNode (setKey es k
            (JSON.dict (walkEntries act false ces rest last).1)) k (rest ++ [q]) = _
          simp only [lookNode, lookup_setKey_self]
          rw [getNode_dict_eq_ddict _ _ (by simp)]
          exact ih3 q
      | ddict ces =>
        have hnav2 : navigate true ces rest = some (fdd, fes) := by
          simpa [navigate, hl] using hnav
        obtain ⟨ih1, ih2, ih3⟩ := ih true ces fes fdd last hnav2
        refine ⟨?_, ?_, ?_⟩
        · simp only [walkEntries, hl]
          exact ih1
        · simp only [walkEntries, hl, navigate, lookup_setKey_self]
          exact ih2
        · intro q
          simp only [walkEntries, hl, List.cons_append]
          show lookNode (setKey es k
            (JSON.ddict (walkEntries act true ces rest last).1)) k (rest ++ [q]) = _
          simp only [lookNode, lookup_setKey_self]
          exact ih3 q
      | str s1 => simp [navigate, hl] at hnav
      | bool b1 => simp [navigate, hl] at hnav
      | num n1 => simp [navigate, hl] at hnav
      | list xs1 => simp [navigate, hl] at hnav

/-- When the descent meets a non-dict value the fused operation raises
TypeError and returns the entries unchanged: the walk of
_get_dict_and_key creates nothing before the Python subscript raises. -/
theorem walk_err (act : Bool → Entries → String → Entries × Option PyErr) :
    ∀ (inter : List String) (isDD : Bool) (es : Entries) (last : String),
    navigate isDD es inter = none →
    walkEntries act isDD es inter last = (es, some PyErr.typeError) := by
  intro inter
  induction inter with
  | nil =>
    intro isDD es last h
    simp [navigate] at h
  | cons k rest ih =>
    intro isDD es last h
    cases hl : lookup es k with
    | none =>
      exfalso
      have hnil := navigate_nil rest
      simp [navigate, hl, hnil] at h
    | some val =>
      cases val with
      | dict ces =>
        have h2 : navigate false ces rest = none := by
          simpa [navigate, hl] using h
        have hw := ih false ces last h2
        simp only [walkEntries, hl, hw]
        rw [setKey_lookup_id es k _ hl]
      | ddict ces =>
        have h2 : navigate true ces rest = none := by
          simpa [navigate, hl] using h
        have hw := ih true ces last h2
        simp only [walkEntries, hl, hw]
        rw [setKey_lookup_id es k _ hl]
      | str s1 => simp only [walkEntries, hl]
      | bool b1 => simp only [walkEntries, hl]
      | num n1 => simp only [walkEntries, hl]
      | list xs1 => simp only [walkEntries, hl]

/-- Frame lemma for the fused walk: when the final act touches only its own
key, any path that diverges from the operated path reads the same value
before and after, whether or not an exception was raised. -/
theorem walk_frame (act : Bool → Entries → String → Entries × Option PyErr)
    (hloc : ∀ (dd : Bool) (fes : Entries) (key k2 : String), k2 ≠ key →
      lookup (act dd fes key).1 k2 = lookup fes k2) :
    ∀ (inter : List String) (isDD : Bool) (es : Entries) (last b : String)
      (bs : List String),
    divergesB (inter ++ [last]) (b :: bs) = true →
    lookNode (walkEntries act isDD es inter last).1 b bs = lookNode es b bs := by
  intro inter
  induction inter with
  | nil =>
    intro isDD es last b bs hdiv
    have hne : b ≠ last := by
      intro hbe
      subst hbe
      simp [divergesB] at hdiv
    show lookNode (act isDD es last).1 b bs = lookNode es b bs
    unfold lookNode
    rw [hloc isDD es last b hne]
  | cons k rest ih =>
    intro isDD es last b bs hdiv
    by_cases hkb : k = b
    · subst hkb
      have hdiv2 : divergesB (rest ++ [last]) bs = true := by
        simpa [divergesB] using hdiv
      cases bs with
      | nil =>
        rw [divergesB_nil_right] at hdiv2
        exact absurd hdiv2 (by simp)
      | cons b2 bs2 =>
        cases hl : lookup es k with
        | none =>
          simp only [walkEntries, lookNode, hl, lookup_setKey_self]
          have hfr := ih true [] last b2 bs2 hdiv2
          rw [lookNode_empty] at hfr
          exact hfr
        | some val =>
          cases val with
          | dict ces =>
            simp only [walkEntries, lookNode, hl, lookup_setKey_self]
            exact ih false ces last b2 bs2 hdiv2
          | ddict ces =>
            simp only [walkEntries, lookNode, hl, lookup_setKey_self]
            exact ih true ces last b2 bs2 hdiv2
          | str s1 => simp only [walkEntries, hl]
          | bool b1 => simp only [walkEntries, hl]
          | num n1 => simp only [walkEntries, hl]
          | list xs1 => simp only [walkEntries, hl]
    · have hbk : b ≠ k := fun h => hkb h.symm
      cases hl : lookup es k with
      | none =>
        simp only [walkEntries, lookNode, hl, lookup_setKey_ne es k b _ hbk]
      | some val =>
        cases val with
        | dict ces =>
          simp only [walkEntries, lookNode, hl, lookup_setKey_ne es k b _ hbk]
        | ddict ces =>
          simp only [walkEntries, lookNode, hl, lookup_setKey_ne es k b _ hbk]
        | str s1 => simp only [walkEntries, hl]
        | bool b1 => simp only [walkEntries, hl]
        | num n1 => simp only [walkEntries, hl]
        | list xs1 => simp only [walkEntries, hl]

/-- Unfolding of applyOp once the parsed key list is known. -/
theorem applyOp_eq (s : DataStore) (p : String)
    (act : Bool → Entries → String → Entries × Option PyErr)
    (k : String) (ks : List String) (hk : keysOf p = k :: ks) :
    s.applyOp p act =
      (⟨(walkEntries act true s._dict (splitLast1 k ks).1 (splitLast1 k ks).2).1⟩,
       (walkEntries act true s._dict (splitLast1 k ks).1 (splitLast1 k ks).2).2) := by
  unfold DataStore.applyOp
  rw [hk]

/-- Unfolding of get once the parsed key list is known, presented through
the keys[:-1] and keys[-1] decomposition used by the walk. -/
theorem get_eq (s : DataStore) (p : String) (k : String) (ks : List String)
    (hk : keysOf p = k :: ks) :
    s.get p = getNode (JSON.ddict s._dict)
      ((splitLast1 k ks).1 ++ [(splitLast1 k ks).2]) := by
  unfold DataStore.get
  rw [hk, splitLast1_eq]

/-- The final act of set touches only its own key. -/
theorem setAct_local (v : JSON) : ∀ (dd : Bool) (fes : Entries) (key k2 : String),
    k2 ≠ key → lookup (setAct v dd fes key).1 k2 = lookup fes k2 := by
  intro dd fes key k2 hne
  simp [setAct, lookup_setKey_ne fes key k2 v hne]

/-- The final act of append touches only its own key. -/
theorem appendAct_local (v : JSON) : ∀ (dd : Bool) (fes : Entries) (key k2 : String),
    k2 ≠ key → lookup (appendAct v dd fes key).1 k2 = lookup fes k2 := by
  intro dd fes key k2 hne
  unfold appendAct
  cases h : lookup fes key with
  | none => cases dd <;> simp [lookup_setKey_ne fes key k2 _ hne]
  | some u => cases u <;> simp [lookup_setKey_ne fes key k2 _ hne]

/-- The final act of extend touches only its own key. -/
theorem extendAct_local (v : JSON) : ∀ (dd : Bool) (fes : Entries) (key k2 : String),
    k2 ≠ key → lookup (extendAct v dd fes key).1 k2 = lookup fes k2 := by
  intro dd fes key k2 hne
  unfold extendAct
  cases h : lookup fes key with
  | none =>
    cases dd <;> cases hp : pyIter v <;>
      simp [hp, lookup_setKey_ne fes key k2 _ hne]
  | some u =>
    cases u <;> cases hp : pyIter v <;>
      simp [hp, lookup_setKey_ne fes key k2 _ hne]

/-- Behavior of a store mutation along a clear path, phrased directly on
the store operations: the error is the final act error, the walk still
reaches the act result, and reading the operated path reads the act
result. -/
theorem applyOp_at (s : DataStore) (p : String)
    (act : Bool → Entries → String → Entries × Option PyErr)
    (k : String) (ks : List String) (fdd : Bool) (fes : Entries)
    (hk : keysOf p = k :: ks)
    (hnav : navigate true s._dict (splitLast1 k ks).1 = some (fdd, fes)) :
    (s.applyOp p act).2 = (act fdd fes (splitLast1 k ks).2).2 ∧
    navigate true (s.applyOp p act).1._dict (splitLast1 k ks).1
      = some (fdd, (act fdd fes (splitLast1 k ks).2).1) ∧
    (s.applyOp p act).1.get p
      = lookup (act fdd fes (splitLast1 k ks).2).1 (splitLast1 k ks).2 := by
  obtain ⟨m1, m2, m3⟩ :=
    walk_master act (splitLast1 k ks).1 true s._dict fes fdd (splitLast1 k ks).2 hnav
  rw [applyOp_eq s p act k ks hk]
  refine ⟨m1, m2, ?_⟩
  rw [get_eq _ p k ks hk]
  exact m3 _

/-- Frame property of a store mutation: any key path that diverges from
the operated path reads the same value before and after. -/
theorem applyOp_frame (s : DataStore) (p : String)
    (act : Bool → Entries → String → Entries × Option PyErr)
    (hloc : ∀ (dd : Bool) (fes : Entries) (key k2 : String), k2 ≠ key →
      lookup (act dd fes key).1 k2 = lookup fes k2)
    (qp : String)
    (hdiv : divergesB (keysOf p) (keysOf qp) = true) :
    (s.applyOp p act).1.get qp = s.get qp := by
  cases hk : keysOf p with
  | nil => exact absurd hk (keysOf_ne_nil p)
  | cons k ks =>
    cases hq2 : keysOf qp with
    | nil =>
      rw [hk, hq2, divergesB_nil_right] at hdiv
      exact absurd hdiv (by simp)
    | cons b bs =>
      rw [hk, hq2] at hdiv
      have hdiv2 : divergesB ((splitLast1 k ks).1 ++ [(splitLast1 k ks).2])
          (b :: bs) = true := by
        rw [splitLast1_eq]
        exact hdiv
      have hfr := walk_frame act hloc (splitLast1 k ks).1 true s._dict
        (splitLast1 k ks).2 b bs hdiv2
      rw [applyOp_eq s p act k ks hk]
      unfold DataStore.get
      rw [hq2]
      exact hfr

/-- C1, counterexample: set("a", 5) followed by set("a.b", 1) does not
succeed; it raises a TypeError and stores nothing, because the walk of
_get_dict_and_key only auto-creates missing keys and descends into the
existing non-mapping leaf, whose subscript then raises. -/
theorem C1_counterexample :
    ((DataStore.empty.set "a" (JSON.num 5)).1.set "a.b" (JSON.num 1)).2
        = some PyErr.typeError ∧
    ((DataStore.empty.set "a" (JSON.num 5)).1.set "a.b" (JSON.num 1)).1
        = (DataStore.empty.set "a" (JSON.num 5)).1 := ⟨rfl, rfl⟩

/-- C1, amended: for every store and value, when the key path has at least
two segments and the descent through the intermediate segments meets a
non-mapping leaf (navigate returns none), set raises a TypeError and the
store is left completely unchanged; the leaf is not overwritten with a
mapping and the new value is not stored. -/
theorem C1_conflicting_leaf_raises (s : DataStore) (p : String) (v : JSON)
    (k : String) (ks : List String)
    (hk : keysOf p = k :: ks)
    (hnav : navigate true s._dict (splitLast1 k ks).1 = none) :
    s.set p v = (s, some PyErr.typeError) := by
  unfold DataStore.set
  rw [applyOp_eq s p _ k ks hk,
    walk_err (setAct v) (splitLast1 k ks).1 true s._dict (splitLast1 k ks).2 hnav]

/-- C1, witness for the amended theorem at the concrete store holding the
leaf 5 at segment a. -/
theorem C1_witness :
    (DataStore.mk [("a", JSON.num 5)]).set "a.b" (JSON.num 1)
      = (DataStore.mk [("a", JSON.num 5)], some PyErr.typeError) :=
  C1_conflicting_leaf_raises (DataStore.mk [("a", JSON.num 5)]) "a.b"
    (JSON.num 1) "a" ["b"] rfl rfl

/-- C2: code behavior at the failing input: set on the key path a..b with
an empty segment raises nothing and silently creates an extra empty-named
mapping, instead of the KeyPathError the specification requires. -/
theorem C2_empty_segment_silently_created :
    DataStore.empty.set "a..b" (JSON.num 1)
      = (DataStore.mk [("a", JSON.ddict [("", JSON.ddict [("b", JSON.num 1)])])],
         none) ∧
    (DataStore.empty.set "a..b" (JSON.num 1)).1.get "a..b" = some (JSON.num 1) :=
  ⟨rfl, rfl⟩

/-- C3: when the query evaluator signals not-found, JsonCollector.run logs
exactly one warning, raises nothing, and returns the store exactly as it
was, so every key path including the target still reads the same value. -/
theorem C3_notfound_warns_no_mutation (q : Query) (c : JsonCollector)
    (doc : JSON) (ds : DataStore) (h : q doc c.json_path = none) :
    c.run q doc ds = ⟨ds, ["Could not find path: " ++ c.json_path], none⟩ := by
  unfold JsonCollector.run
  rw [h]

/-- C3, witness at a concrete collector and evaluator that never matches. -/
theorem C3_witness :
    (JsonStaticListAppender "$.x" "a").run (fun _ _ => none) (JSON.num 0)
        DataStore.empty
      = ⟨DataStore.empty, ["Could not find path: " ++ "$.x"], none⟩ :=
  C3_notfound_warns_no_mutation (fun _ _ => none)
    (JsonStaticListAppender "$.x" "a") (JSON.num 0) DataStore.empty rfl

/-- C9: the root of an in-memory document source is idempotent: any two
calls return the same value, namely the wrapped value unchanged. -/
theorem C9_root_idempotent (d : JsonDict) (i j : Nat) :
    d.root i = d.root j ∧ d.root i = d.json_obj := ⟨rfl, rfl⟩

/-- C8: for every store and well-formed key path whose intermediate
segments are each missing or mapping-valued, set succeeds with no error,
silently creating the missing intermediate segments, and a read of the
path returns exactly the written value. -/
theorem C8_set_roundtrip (s : DataStore) (p : String) (v : JSON)
    (k : String) (ks : List String) (fdd : Bool) (fes : Entries)
    (hk : keysOf p = k :: ks)
    (hseg : ∀ seg ∈ keysOf p, seg ≠ "")
    (hnav : navigate true s._dict (splitLast1 k ks).1 = some (fdd, fes)) :
    (s.set p v).2 = none ∧ (s.set p v).1.get p = some v := by
  obtain ⟨m1, _, m3⟩ := applyOp_at s p (setAct v) k ks fdd fes hk hnav
  unfold DataStore.set
  refine ⟨m1, ?_⟩
  rw [m3]
  exact lookup_setKey_self fes (splitLast1 k ks).2 v

/-- C8, witness: writing 7 at x.y in the empty store and reading it back. -/
theorem C8_witness :
    (DataStore.empty.set "x.y" (JSON.num 7)).2 = none ∧
    (DataStore.empty.set "x.y" (JSON.num 7)).1.get "x.y" = some (JSON.num 7) :=
  C8_set_roundtrip DataStore.empty "x.y" (JSON.num 7) "x" ["y"] true []
    rfl (by decide) rfl

/-- C6: on every well-formed key path, two appends from the empty store
succeed and leave the two values as a sequence in order; and on any store
whose walk to the path succeeds, when the current value at the path exists
and is not a sequence, append resets it to an empty sequence and then
appends the value as one new element. -/
theorem C6_append_semantics (p : String) (k : String) (ks : List String)
    (v1 v2 : JSON)
    (hk : keysOf p = k :: ks) (hseg : ∀ seg ∈ keysOf p, seg ≠ "") :
    ((DataStore.empty.append p v1).2 = none ∧
     ((DataStore.empty.append p v1).1.append p v2).2 = none ∧
     ((DataStore.empty.append p v1).1.append p v2).1.get p
        = some (JSON.list [v1, v2])) ∧
    (∀ (s : DataStore) (fdd : Bool) (fes : Entries) (u v : JSON),
      navigate true s._dict (splitLast1 k ks).1 = some (fdd, fes) →
      lookup fes (splitLast1 k ks).2 = some u → u.isList = false →
      (s.append p v).2 = none ∧
      (s.append p v).1.get p = some (JSON.list [v])) := by
  constructor
  · obtain ⟨m1, m2, _⟩ := applyOp_at DataStore.empty p (appendAct v1) k ks
      true [] hk (navigate_nil _)
    obtain ⟨n1, _, n3⟩ := applyOp_at (DataStore.empty.append p v1).1 p
      (appendAct v2) k ks true [((splitLast1 k ks).2, JSON.list [v1])] hk m2
    have haux : appendAct v2 true [((splitLast1 k ks).2, JSON.list [v1])]
        (splitLast1 k ks).2
        = ([((splitLast1 k ks).2, JSON.list [v1, v2])], none) := by
      simp [appendAct, lookup, setKey]
    refine ⟨m1, ?_, ?_⟩
    · show ((DataStore.empty.append p v1).1.applyOp p (appendAct v2)).2 = none
      rw [n1, haux]
    · show ((DataStore.empty.append p v1).1.applyOp p (appendAct v2)).1.get p = _
      rw [n3, haux]
      simp [lookup]
  · intro s fdd fes u v hnav hu hul
    obtain ⟨m1, _, m3⟩ := applyOp_at s p (appendAct v) k ks fdd fes hk hnav
    have haux : appendAct v fdd fes (splitLast1 k ks).2
        = (setKey fes (splitLast1 k ks).2 (JSON.list [v]), none) := by
      unfold appendAct
      rw [hu]
      cases u with
      | list xs => simp [JSON.isList] at hul
      | str s1 => rfl
      | bool b1 => rfl
      | num n1 => rfl
      | dict d1 => rfl
      | ddict d1 => rfl
    constructor
    · show (s.applyOp p (appendAct v)).2 = none
      rw [m1, haux]
    · show (s.applyOp p (appendAct v)).1.get p = _
      rw [m3, haux]
      exact lookup_setKey_self _ _ _

/-- C6, witness: two appends at a.b from the empty store give the ordered
pair, and one append over the existing non-sequence leaf at a.b gives the
singleton sequence. -/
theorem C6_witness :
    ((DataStore.empty.append "a.b" (JSON.num 1)).2 = none ∧
     ((DataStore.empty.append "a.b" (JSON.num 1)).1.append "a.b" (JSON.num 2)).2
        = none ∧
     ((DataStore.empty.append "a.b" (JSON.num 1)).1.append "a.b" (JSON.num 2)).1.get
        "a.b" = some (JSON.list [JSON.num 1, JSON.num 2])) ∧
    (((DataStore.mk [("a", JSON.ddict [("b", JSON.str "x")])]).append "a.b"
        (JSON.num 9)).2 = none ∧
     ((DataStore.mk [("a", JSON.ddict [("b", JSON.str "x")])]).append "a.b"
        (JSON.num 9)).1.get "a.b" = some (JSON.list [JSON.num 9])) :=
  ⟨(C6_append_semantics "a.b" "a" ["b"] (JSON.num 1) (JSON.num 2) rfl
      (by decide)).1,
   (C6_append_semantics "a.b" "a" ["b"] (JSON.num 1) (JSON.num 2) rfl
      (by decide)).2
     (DataStore.mk [("a", JSON.ddict [("b", JSON.str "x")])]) true
     [("b", JSON.str "x")] (JSON.str "x") (JSON.num 9) rfl rfl rfl⟩

/-- C7, counterexample: with the value at segment a being a plain mapping
taken from a document, the value at a.b is absent, yet extend("a.b", [1])
does not store the sequence: it raises KeyError, because append and extend
first read obj[key] and only a store-created defaultdict auto-creates the
missing entry. -/
theorem C7_counterexample :
    ((DataStore.empty.set "a" (JSON.dict [])).1.extend "a.b"
        (JSON.list [JSON.num 1])).2 = some PyErr.keyError ∧
    ((DataStore.empty.set "a" (JSON.dict [])).1.extend "a.b"
        (JSON.list [JSON.num 1])).1.get "a.b" = none := ⟨rfl, rfl⟩

/-- C7, amended: extend with a sequence xs yields a sequence equal to xs
element-for-element when the walk to the path succeeds and either the
value at the path is absent with a store-created defaultdict as its
containing mapping, or the value at the path is present and not a
sequence; when the containing mapping is a plain document-derived mapping
and the value is absent, extend instead raises KeyError (see the
counterexample). -/
theorem C7_extend_amended (s : DataStore) (p : String) (xs : List JSON)
    (k : String) (ks : List String) (fdd : Bool) (fes : Entries)
    (hk : keysOf p = k :: ks) (hseg : ∀ seg ∈ keysOf p, seg ≠ "")
    (hnav : navigate true s._dict (splitLast1 k ks).1 = some (fdd, fes)) :
    (lookup fes (splitLast1 k ks).2 = none → fdd = true →
      (s.extend p (JSON.list xs)).2 = none ∧
      (s.extend p (JSON.list xs)).1.get p = some (JSON.list xs)) ∧
    (∀ u, lookup fes (splitLast1 k ks).2 = some u → u.isList = false →
      (s.extend p (JSON.list xs)).2 = none ∧
      (s.extend p (JSON.list xs)).1.get p = some (JSON.list xs)) := by
  obtain ⟨m1, _, m3⟩ := applyOp_at s p (extendAct (JSON.list xs)) k ks fdd fes
    hk hnav
  constructor
  · intro hnone hfdd
    subst hfdd
    have haux : extendAct (JSON.list xs) true fes (splitLast1 k ks).2
        = (setKey fes (splitLast1 k ks).2 (JSON.list xs), none) := by
      unfold extendAct
      rw [hnone]
      rfl
    constructor
    · show (s.applyOp p (extendAct (JSON.list xs))).2 = none
      rw [m1, haux]
    · show (s.applyOp p (extendAct (JSON.list xs))).1.get p = _
      rw [m3, haux]
      exact lookup_setKey_self _ _ _
  · intro u hu hul
    have haux : extendAct (JSON.list xs) fdd fes (splitLast1 k ks).2
        = (setKey fes (splitLast1 k ks).2 (JSON.list xs), none) := by
      unfold extendAct
      rw [hu]
      cases u with
      | list xs1 => simp [JSON.isList] at hul
      | str s1 => rfl
      | bool b1 => rfl
      | num n1 => rfl
      | dict d1 => rfl
      | ddict d1 => rfl
    constructor
    · show (s.applyOp p (extendAct (JSON.list xs))).2 = none
      rw [m1, haux]
    · show (s.applyOp p (extendAct (JSON.list xs))).1.get p = _
      rw [m3, haux]
      exact lookup_setKey_self _ _ _

/-- C7, witness for the amended theorem: extend at an absent a.b under a
store-created defaultdict, and extend over a present non-sequence value. -/
theorem C7_witness :
    (((DataStore.mk [("a", JSON.ddict [])]).extend "a.b"
        (JSON.list [JSON.num 1, JSON.num 2])).2 = none ∧
     ((DataStore.mk [("a", JSON.ddict [])]).extend "a.b"
        (JSON.list [JSON.num 1, JSON.num 2])).1.get "a.b"
        = some (JSON.list [JSON.num 1, JSON.num 2])) ∧
    (((DataStore.mk [("a", JSON.ddict [("b", JSON.num 4)])]).extend "a.b"
        (JSON.list [JSON.num 1, JSON.num 2])).2 = none ∧
     ((DataStore.mk [("a", JSON.ddict [("b", JSON.num 4)])]).extend "a.b"
        (JSON.list [JSON.num 1, JSON.num 2])).1.get "a.b"
        = some (JSON.list [JSON.num 1, JSON.num 2])) :=
  ⟨(C7_extend_amended (DataStore.mk [("a", JSON.ddict [])]) "a.b"
      [JSON.num 1, JSON.num 2] "a" ["b"] true [] rfl (by decide) rfl).1 rfl rfl,
   (C7_extend_amended (DataStore.mk [("a", JSON.ddict [("b", JSON.num 4)])])
      "a.b" [JSON.num 1, JSON.num 2] "a" ["b"] true [("b", JSON.num 4)] rfl
      (by decide) rfl).2 (JSON.num 4) rfl rfl⟩

/-- C10: when the query evaluation succeeds, a collector run modifies the
store only along its configured target key path: the value reachable at
every key path that diverges from the target path (neither is a prefix of
the other) is exactly unchanged. -/
theorem C10_collector_frame (q : Query) (c : JsonCollector) (doc : JSON)
    (ds : DataStore) (r : JSON) (qp : String)
    (hq : q doc c.json_path = some r)
    (hdiv : divergesB (keysOf c.key_path) (keysOf qp) = true) :
    (c.run q doc ds).store.get qp = ds.get qp := by
  obtain ⟨kind, jp, kp⟩ := c
  unfold JsonCollector.run
  rw [hq]
  show (JsonCollector._set ⟨kind, jp, kp⟩ ds r).1.get qp = ds.get qp
  cases kind with
  | extender =>
    show (ds.applyOp kp (extendAct r)).1.get qp = ds.get qp
    exact applyOp_frame ds kp (extendAct r) (extendAct_local r) qp hdiv
  | appender =>
    show (ds.applyOp kp (appendAct r)).1.get qp = ds.get qp
    exact applyOp_frame ds kp (appendAct r) (appendAct_local r) qp hdiv

/-- C10, witness: an appender targeting a.b leaves the value at the
diverging path x.y untouched. -/
theorem C10_witness :
    ((JsonStaticListAppender "$" "a.b").run (fun _ _ => some (JSON.num 1))
        (JSON.num 0)
        (DataStore.mk [("x", JSON.ddict [("y", JSON.num 7)])])).store.get "x.y"
      = (DataStore.mk [("x", JSON.ddict [("y", JSON.num 7)])]).get "x.y" :=
  C10_collector_frame (fun _ _ => some (JSON.num 1))
    (JsonStaticListAppender "$" "a.b") (JSON.num 0)
    (DataStore.mk [("x", JSON.ddict [("y", JSON.num 7)])]) (JSON.num 1)
    "x.y" rfl rfl

/-- C4: a pipe run consumes exactly one root call, its result is the
sequential fold of its collectors in configured order over that one
document, and for a pipe of two collectors the final store is exactly the
store left by the later collector run on the store the earlier one
produced, so on a shared target key path the later write determines the
final value. -/
theorem C4_pipe_single_root_and_order (q : Query) (p : JsonPipe)
    (ds : DataStore) (n : Nat) (src : JsonDataSource) (c1 c2 : JsonCollector)
    (ds1 : DataStore) (w1 : List String)
    (h : c1.run q (src.root n) ds = ⟨ds1, w1, none⟩) :
    (p.run q ds n).2 = n + 1 ∧
    (p.run q ds n).1 = runCollectors q (p.source.root n) p.collectors ds ∧
    ((JsonPipe.mk src [c1, c2]).run q ds n).1.store
      = (c2.run q (src.root n) ds1).store := by
  refine ⟨rfl, rfl, ?_⟩
  show (runCollectors q (src.root n) [c1, c2] ds).store = _
  simp only [runCollectors, h]
  cases he : (c2.run q (src.root n) ds1).err <;> simp [runCollectors, he]

/-- C4, witness at a concrete source, evaluator and two appenders sharing
the target path t. -/
theorem C4_witness :
    ((JsonPipe.mk (JsonDataSource.mk fun _ => JSON.bool true)
        [JsonStaticListAppender "$" "t"]).run (fun _ _ => some (JSON.num 3))
        DataStore.empty 0).2 = 0 + 1 ∧
    ((JsonPipe.mk (JsonDataSource.mk fun _ => JSON.bool true)
        [JsonStaticListAppender "$" "t"]).run (fun _ _ => some (JSON.num 3))
        DataStore.empty 0).1
      = runCollectors (fun _ _ => some (JSON.num 3))
          ((JsonDataSource.mk fun _ => JSON.bool true).root 0)
          [JsonStaticListAppender "$" "t"] DataStore.empty ∧
    ((JsonPipe.mk (JsonDataSource.mk fun _ => JSON.bool true)
        [JsonStaticListAppender "$" "t", JsonStaticListAppender "$" "t"]).run
        (fun _ _ => some (JSON.num 3)) DataStore.empty 0).1.store
      = ((JsonStaticListAppender "$" "t").run (fun _ _ => some (JSON.num 3))
          ((JsonDataSource.mk fun _ => JSON.bool true).root 0)
          (DataStore.mk [("t", JSON.list [JSON.num 3])])).store :=
  C4_pipe_single_root_and_order (fun _ _ => some (JSON.num 3))
    (JsonPipe.mk (JsonDataSource.mk fun _ => JSON.bool true)
      [JsonStaticListAppender "$" "t"]) DataStore.empty 0
    (JsonDataSource.mk fun _ => JSON.bool true)
    (JsonStaticListAppender "$" "t") (JsonStaticListAppender "$" "t")
    (DataStore.mk [("t", JSON.list [JSON.num 3])]) [] rfl

/-- C5: a Transformer run starts every run from one fresh empty store,
runs all pipes against it in configured order, and only when they all
finished without an exception invokes every sink in configured order on
that same final store; no pipe runs after any sink and the sink outputs
are the sends of the final store in order. -/
theorem C5_transformer_order (q : Query) (t : Transformer) (ds : DataStore)
    (w : List String) (n : Nat)
    (h : runPipes q t.sources DataStore.empty 0 = (⟨ds, w, none⟩, n)) :
    t.run q = (⟨ds, w, none⟩, t.sinks.map (fun sk => sk.send ds)) := by
  unfold Transformer.run
  rw [h]

/-- C5, witness at a concrete transformer with one pipe and one sink. -/
theorem C5_witness :
    (Transformer.mk
        [JsonPipe.mk (JsonDataSource.mk fun _ => JSON.num 0)
          [JsonStaticListAppender "$" "a"]]
        [Sink.mk fun _ => "rendered"]).run (fun _ _ => some (JSON.num 1))
      = (⟨DataStore.mk [("a", JSON.list [JSON.num 1])], [], none⟩,
         ["rendered"]) :=
  C5_transformer_order (fun _ _ => some (JSON.num 1))
    (Transformer.mk
      [JsonPipe.mk (JsonDataSource.mk fun _ => JSON.num 0)
        [JsonStaticListAppender "$" "a"]]
      [Sink.mk fun _ => "rendered"])
    (DataStore.mk [("a", JSON.list [JSON.num 1])]) [] 1 rfl
